import Mathlib

/-!
Verification of the GeoDash `CityData` facade (src/GeoDash/data/city_manager.py).

The facade coordinates a schema manager, a data importer and three read
repositories over one database handle.  We embed it shallowly:

* the database table of city records is a `List CityRecord`;
* each `functools.lru_cache`-decorated method is a pure state transformer on
  an explicit `LruCache` (association list in most-recently-used-first order,
  with the CPython semantics: hit moves the entry to the front, miss inserts
  at the front and drops the least recently used entry past `maxsize`);
* every external call that may raise is given its outcome by an environment
  record, and Python `try`/`except` becomes an explicit `Except` match;
* calls made to collaborators are recorded in an event trace, so that
  "method X was (not) invoked" becomes membership in the trace.
-/

namespace GeoDash

/-- A city record as stored in the `city_data` table (spec §3: identifier,
name, country, nullable state, coordinates, population metadata). -/
structure CityRecord where
  id : Nat
  name : String
  country : String
  state : Option String
  lat : ℚ
  lng : ℚ
  population : Nat
deriving DecidableEq, Repr

/-- Argument tuple of `CityData.search_cities`:
`(query, limit, country, user_lat, user_lng, user_country)`.
Optional arguments are `Option` values, so `none` is a distinct key component
from any concrete value, exactly as Python's `None` is under `lru_cache`. -/
structure SearchKey where
  query : String
  limit : Nat
  country : Option String
  user_lat : Option ℚ
  user_lng : Option ℚ
  user_country : Option String
deriving DecidableEq, Repr

/-- A bounded memoization cache with least-recently-used eviction, embedding
`functools.lru_cache(maxsize=n)`.  `entries` is kept most-recently-used
first; the least recently used entry is the last one. -/
structure LruCache (K V : Type) where
  entries : List (K × V)
  maxsize : Nat
deriving Repr

/-- The empty cache created when the decorated method is defined. -/
def LruCache.empty (K V : Type) (maxsize : Nat) : LruCache K V :=
  ⟨[], maxsize⟩

/-- The keys currently cached, most recently used first. -/
def LruCache.keys {K V : Type} (c : LruCache K V) : List K :=
  c.entries.map Prod.fst

/-- One call through an `lru_cache`-wrapped function: on a hit return the
stored value and move its entry to the front; on a miss invoke the wrapped
function `f`, store the result at the front and drop anything beyond
`maxsize` (dropping exactly the least recently used entry).  The returned
`Bool` records whether `f` was invoked. -/
def LruCache.call {K V : Type} [DecidableEq K] (c : LruCache K V) (f : K → V)
    (k : K) : V × LruCache K V × Bool :=
  match c.entries.find? (fun p => p.1 = k) with
  | some p =>
      (p.2, ⟨(k, p.2) :: c.entries.filter (fun q => q.1 ≠ k), c.maxsize⟩, false)
  | none =>
      let v := f k
      (v, ⟨((k, v) :: c.entries).take c.maxsize, c.maxsize⟩, true)

/-- Comparison used by the spec-modelled repositories for alphabetical
sorting of strings. -/
def strLe (a b : String) : Bool := decide (a ≤ b)

/-- Comparison of city records by name, for the spec-modelled region
repository's name-sorted city lists. -/
def cityNameLe (a b : CityRecord) : Bool := decide (a.name ≤ b.name)

/-- Modelled from the spec: `CityRepository.search` (GeoDash/data/repositories.py
is not under src/).  Spec §4.4: prefix name search with an optional country
filter, truncated to `limit`; the relevance/proximity ranking internals are
out of scope, so matches are kept in table order. -/
def citySearch (table : List CityRecord) (k : SearchKey) : List CityRecord :=
  (table.filter (fun c =>
    k.query.isPrefixOf c.name &&
      match k.country with
      | none => true
      | some ctry => c.country == ctry)).take k.limit

/-- Modelled from the spec: `CityRepository.get_by_id` (repositories.py is not
under src/).  Lookup of the unique record with the given identifier; an
absent city yields `none`, not an error (spec §7). -/
def cityGetById (table : List CityRecord) (city_id : Nat) : Option CityRecord :=
  table.find? (fun c => c.id = city_id)

/-- Squared planar distance between a record and a query point.  The
haversine math inside the geographic repository is out of scope (spec §1);
every claim about radius search concerns only delegation, never distances. -/
def dist2 (c : CityRecord) (lat lng : ℚ) : ℚ :=
  (c.lat - lat) ^ 2 + (c.lng - lng) ^ 2

/-- Modelled from the spec: `GeoRepository.find_by_coordinates`
(repositories.py is not under src/).  Spec §4.4: the cities within the
radius, ordered by ascending distance. -/
def geoFindByCoordinates (table : List CityRecord) (lat lng radius_km : ℚ) :
    List CityRecord :=
  (table.filter (fun c => decide (dist2 c lat lng ≤ radius_km ^ 2))).mergeSort
    (fun a b => decide (dist2 a lat lng ≤ dist2 b lat lng))

/-- Modelled from the spec: `RegionRepository.get_countries` (repositories.py
is not under src/).  Spec §4.4: all countries, alphabetically sorted. -/
def regionGetCountries (table : List CityRecord) : List String :=
  ((table.map (fun c => c.country)).dedup).mergeSort strLe

/-- Modelled from the spec: `RegionRepository.get_states` (repositories.py is
not under src/).  Spec §4.4: the states of a country, alphabetically
sorted. -/
def regionGetStates (table : List CityRecord) (country : String) : List String :=
  (((table.filter (fun c => c.country == country)).filterMap
      (fun c => c.state)).dedup).mergeSort strLe

/-- Modelled from the spec: `RegionRepository.get_cities_in_state`
(repositories.py is not under src/).  Spec §4.4: the cities of a state,
sorted by name. -/
def regionGetCitiesInState (table : List CityRecord) (state country : String) :
    List CityRecord :=
  (table.filter (fun c => c.state == some state && c.country == country)).mergeSort
    cityNameLe

/-- The state of one `CityData` facade instance: the table its repositories
query, one `lru_cache` per cached method (capacities are the literal
`maxsize` arguments of the decorators in city_manager.py), the `persistent`
flag, and whether the database handle is still open. -/
structure CityData where
  table : List CityRecord
  search_cache : LruCache SearchKey (List CityRecord)
  city_cache : LruCache Nat (Option CityRecord)
  countries_cache : LruCache Unit (List String)
  states_cache : LruCache String (List String)
  cities_in_state_cache : LruCache (String × String) (List CityRecord)
  persistent : Bool
  handleOpen : Bool

/-- A facade as produced by `CityData.__init__` over a given table: all
caches empty, with the decorators' capacities (5000, 1000, 1, 100, 500), and
an open handle. -/
def mkCityData (table : List CityRecord) (persistent : Bool) : CityData where
  table := table
  search_cache := LruCache.empty _ _ 5000
  city_cache := LruCache.empty _ _ 1000
  countries_cache := LruCache.empty _ _ 1
  states_cache := LruCache.empty _ _ 100
  cities_in_state_cache := LruCache.empty _ _ 500
  persistent := persistent
  handleOpen := true

/-- `CityData.search_cities` (city_manager.py:128): an
`lru_cache(maxsize=5000)`-wrapped delegation to `city_repository.search`.
Returns the result, the updated facade, and whether the repository was
invoked. -/
def CityData.search_cities (cd : CityData) (k : SearchKey) :
    List CityRecord × CityData × Bool :=
  let r := cd.search_cache.call (citySearch cd.table) k
  (r.1, { cd with search_cache := r.2.1 }, r.2.2)

/-- `CityData.get_city` (city_manager.py:162): an
`lru_cache(maxsize=1000)`-wrapped delegation to
`city_repository.get_by_id`. -/
def CityData.get_city (cd : CityData) (city_id : Nat) :
    Option CityRecord × CityData × Bool :=
  let r := cd.city_cache.call (cityGetById cd.table) city_id
  (r.1, { cd with city_cache := r.2.1 }, r.2.2)

/-- `CityData.get_cities_by_coordinates` (city_manager.py:175): a plain,
undecorated delegation to `geo_repository.find_by_coordinates`; no cache is
consulted or updated, so the repository is invoked on every call (the final
`Bool` is the invocation flag, uniformly `true`). -/
def CityData.get_cities_by_coordinates (cd : CityData) (lat lng radius_km : ℚ) :
    List CityRecord × CityData × Bool :=
  (geoFindByCoordinates cd.table lat lng radius_km, cd, true)

/-- `CityData.get_countries` (city_manager.py:194): an
`lru_cache(maxsize=1)`-wrapped delegation to
`region_repository.get_countries`. -/
def CityData.get_countries (cd : CityData) : List String × CityData × Bool :=
  let r := cd.countries_cache.call (fun _ => regionGetCountries cd.table) ()
  (r.1, { cd with countries_cache := r.2.1 }, r.2.2)

/-- `CityData.get_states` (city_manager.py:204): an
`lru_cache(maxsize=100)`-wrapped delegation to
`region_repository.get_states`. -/
def CityData.get_states (cd : CityData) (country : String) :
    List String × CityData × Bool :=
  let r := cd.states_cache.call (regionGetStates cd.table) country
  (r.1, { cd with states_cache := r.2.1 }, r.2.2)

/-- `CityData.get_cities_in_state` (city_manager.py:217): an
`lru_cache(maxsize=500)`-wrapped delegation to
`region_repository.get_cities_in_state`. -/
def CityData.get_cities_in_state (cd : CityData) (state country : String) :
    List CityRecord × CityData × Bool :=
  let r := cd.cities_in_state_cache.call
    (fun p => regionGetCitiesInState cd.table p.1 p.2) (state, country)
  (r.1, { cd with cities_in_state_cache := r.2.1 }, r.2.2)

/-- Table metadata returned by `CityData.get_table_info`
(city_manager.py:231), delegating to `schema_manager.get_table_info`
(modelled from the spec, §4.3: `{columns, row_count}`; schema.py is not
under src/). -/
structure TableInfo where
  columns : List String
  row_count : Nat
deriving DecidableEq, Repr

/-- `CityData.get_table_info` on a working connection: the column names and
the current row count of the `city_data` table. -/
def CityData.get_table_info (cd : CityData) : TableInfo :=
  ⟨["id", "name", "country", "state", "lat", "lng", "population"],
    cd.table.length⟩

/-- `CityData.close` (city_manager.py:240): releases the database handle
unless the instance is persistent (persistent handles stay open until
process exit).  `db_manager.close` (database.py, not under src/) is modelled
from the spec as releasing the handle. -/
def CityData.close (cd : CityData) : CityData :=
  if cd.persistent then cd else { cd with handleOpen := false }

/-- `CityData.__exit__` (city_manager.py:263): leaving the `with` block —
normally or with an exception, whose data is the first argument — always
calls `self.close()`. -/
def CityData.exitContext (cd : CityData) (_exc : Option String) : CityData :=
  cd.close

/-- Outcome of one `CityDataImporter.import_from_csv` call (importer.py is
not under src/; spec §4.2 boundary contract: returns the imported count or
fails with a data error).  A failing call may have inserted a partial batch
before raising — city_manager.py's own retry clears the table "to avoid
partial-import duplicates" — so a failure carries the partially inserted
rows. -/
inductive CsvOutcome
  | ok (rows : List CityRecord)
  | fail (partialRows : List CityRecord) (msg : String)
deriving DecidableEq, Repr

/-- Environment fixing the outcomes of the external calls one
`import_city_data` invocation can make: the row-count check, the first
`import_from_csv`, the forced `download_city_data`, the `DELETE` statement,
and the retried `import_from_csv`. -/
structure ImportEnv where
  rowCountFails : Bool
  csvOutcome : CsvOutcome
  downloadOutcome : Except String String
  deleteFails : Bool
  retryOutcome : CsvOutcome
deriving Repr

/-- Calls the facade makes to its collaborators, recorded in order. -/
inductive Event
  | ensureSchema
  | readRowCount
  | importFromCsv (path : Option String) (batch : Nat) (downloadIfMissing : Bool)
  | downloadForce
  | deleteAllRows
  | importCityDataCall (path : Option String) (batch : Nat)
deriving DecidableEq, Repr

/-- The events that write to the `city_data` table: row insertion via
`import_from_csv` and the `DELETE FROM city_data` statement.  The row-count
read, the schema check and the download touch no table rows. -/
def Event.isWrite : Event → Bool
  | .importFromCsv _ _ _ => true
  | .deleteAllRows => true
  | _ => false

/-- The body of the outer `try` of `CityData.import_city_data`
(city_manager.py:98-107): check the row count, return `True` if rows exist,
otherwise import from the provided or discovered CSV and return whether the
imported count is positive.  Result: the outcome (`error` = an exception
escaping the body), the table afterwards, and the trace. -/
def importBody (env : ImportEnv) (csv_path : Option String) (batch_size : Nat)
    (table : List CityRecord) :
    Except String Bool × List CityRecord × List Event :=
  if env.rowCountFails then (.error "row count check failed", table, [.readRowCount])
  else if table.length > 0 then (.ok true, table, [.readRowCount])
  else
    match env.csvOutcome with
    | .ok rows =>
        (.ok (decide (rows.length > 0)), table ++ rows,
          [.readRowCount, .importFromCsv csv_path batch_size true])
    | .fail p msg =>
        (.error msg, table ++ p,
          [.readRowCount, .importFromCsv csv_path batch_size true])

/-- The body of the inner `try` of `CityData.import_city_data`
(city_manager.py:112-123), reached only when the first attempt raised and no
explicit path was given: force a fresh download, clear the table, then retry
the ingestion once. -/
def importRecovery (env : ImportEnv) (batch_size : Nat)
    (table : List CityRecord) :
    Except String Bool × List CityRecord × List Event :=
  match env.downloadOutcome with
  | .error msg => (.error msg, table, [.downloadForce])
  | .ok path =>
      if env.deleteFails then
        (.error "delete failed", table, [.downloadForce, .deleteAllRows])
      else
        match env.retryOutcome with
        | .ok rows =>
            (.ok (decide (rows.length > 0)), rows,
              [.downloadForce, .deleteAllRows,
                .importFromCsv (some path) batch_size false])
        | .fail p msg =>
            (.error msg, p,
              [.downloadForce, .deleteAllRows,
                .importFromCsv (some path) batch_size false])

/-- `CityData.import_city_data` (city_manager.py:87-126).  The outer
`except` catches any failure of the body; only when `csv_path` was `None`
does it run the recovery (whose own failure the inner `except` catches), and
control then falls through to `return False`.  The Python defaults are
`csv_path=None, batch_size=5000`. -/
def CityData.import_city_data (env : ImportEnv) (cd : CityData)
    (csv_path : Option String) (batch_size : Nat) :
    Except String Bool × CityData × List Event :=
  match importBody env csv_path batch_size cd.table with
  | (.ok b, t, tr) => (.ok b, { cd with table := t }, tr)
  | (.error _, t, tr) =>
      match csv_path with
      | some _ => (.ok false, { cd with table := t }, tr)
      | none =>
          match importRecovery env batch_size t with
          | (.ok b, t2, tr2) => (.ok b, { cd with table := t2 }, tr ++ tr2)
          | (.error _, t2, tr2) =>
              (.ok false, { cd with table := t2 }, tr ++ tr2)

/-- Environment for one `CityData.__init__` run: the
`GUNICORN_WORKER_ID` environment variable (absent defaults to
`"standalone"`), whether `ensure_schema_exists` or the init-time row-count
read raises, and the outcomes for the first and (only reachable through the
`except` path) second `import_city_data` call. -/
structure InitEnv where
  workerId : Option String
  ensureSchemaFails : Bool
  initRowCountFails : Bool
  importEnvA : ImportEnv
  importEnvB : ImportEnv
deriving Repr

/-- `CityData.__init__` (city_manager.py:35-85).  A worker process
(`worker_id ≠ 'standalone'`) skips the schema check and the import entirely.
Otherwise the schema is ensured (outside any `try`: its failure propagates),
then the row count is read inside a `try`; on count 0 the import runs, and
any exception of the `try` body leads to a best-effort `import_city_data`
whose own failure is swallowed. -/
def cityDataInit (env : InitEnv) (persistent : Bool)
    (table : List CityRecord) : Except String CityData × List Event :=
  let worker_id := env.workerId.getD "standalone"
  let is_worker := worker_id ≠ "standalone"
  let cd0 := mkCityData table persistent
  if is_worker then (.ok cd0, [])
  else if env.ensureSchemaFails then
    (.error "schema creation failed", [.ensureSchema])
  else if env.initRowCountFails then
    match CityData.import_city_data env.importEnvA cd0 none 5000 with
    | (_, cd1, tr1) =>
        (.ok cd1,
          [.ensureSchema, .readRowCount, .importCityDataCall none 5000] ++ tr1)
  else if table.length == 0 then
    match CityData.import_city_data env.importEnvA cd0 none 5000 with
    | (.ok _, cd1, tr1) =>
        (.ok cd1,
          [.ensureSchema, .readRowCount, .importCityDataCall none 5000] ++ tr1)
    | (.error _, cd1, tr1) =>
        match CityData.import_city_data env.importEnvB cd1 none 5000 with
        | (_, cd2, tr2) =>
            (.ok cd2,
              [.ensureSchema, .readRowCount, .importCityDataCall none 5000]
                ++ tr1 ++ [.importCityDataCall none 5000] ++ tr2)
  else (.ok cd0, [.ensureSchema, .readRowCount])

/-- One read-API call against the facade, used to quantify over arbitrary
call sequences (writes happen only during bootstrap and never touch the
caches, so read calls are the only cache-relevant steps). -/
inductive ReadCall
  | search (k : SearchKey)
  | city (city_id : Nat)
  | coords (lat lng radius_km : ℚ)
  | countries
  | states (country : String)
  | citiesInState (state country : String)
deriving DecidableEq, Repr

/-- The facade state after serving one read call. -/
def CityData.step (cd : CityData) : ReadCall → CityData
  | .search k => (cd.search_cities k).2.1
  | .city cid => (cd.get_city cid).2.1
  | .coords lat lng r => (cd.get_cities_by_coordinates lat lng r).2.1
  | .countries => cd.get_countries.2.1
  | .states c => (cd.get_states c).2.1
  | .citiesInState s c => (cd.get_cities_in_state s c).2.1

/-- The facade state after serving a sequence of read calls. -/
def CityData.run (cd : CityData) (calls : List ReadCall) : CityData :=
  calls.foldl CityData.step cd

/-- The per-method cache bounds of city_manager.py's decorators:
`search_cities` 5000, `get_city` 1000, `get_countries` 1, `get_states` 100,
`get_cities_in_state` 500 — each cache holds at most its capacity and its
capacity field is the decorator's literal. -/
def cacheBoundsOk (cd : CityData) : Prop :=
  (cd.search_cache.entries.length ≤ 5000 ∧ cd.search_cache.maxsize = 5000) ∧
  (cd.city_cache.entries.length ≤ 1000 ∧ cd.city_cache.maxsize = 1000) ∧
  (cd.countries_cache.entries.length ≤ 1 ∧ cd.countries_cache.maxsize = 1) ∧
  (cd.states_cache.entries.length ≤ 100 ∧ cd.states_cache.maxsize = 100) ∧
  (cd.cities_in_state_cache.entries.length ≤ 500 ∧
    cd.cities_in_state_cache.maxsize = 500)

instance (cd : CityData) : Decidable (cacheBoundsOk cd) := by
  unfold cacheBoundsOk; infer_instance

/-- A concrete non-persistent facade over an empty table, used to evaluate
the claim theorems on explicit inputs. -/
def cdW : CityData := mkCityData [] false

/-- A concrete search argument tuple with no location bias
(`user_lat = None`). -/
def kW0 : SearchKey := ⟨"a", 10, none, none, none, none⟩

/-- The same search argument tuple with `user_lat` toggled from `None` to
`40.0` — cache-distinct from `kW0`. -/
def kW1 : SearchKey := ⟨"a", 10, none, some 40, none, none⟩

/-- A concrete full one-entry cache, matching `get_states`-style keys. -/
def lruW : LruCache String (List String) := ⟨[("a", ["x"])], 1⟩

/-- A concrete city record for witnesses. -/
def cityW : CityRecord := ⟨1, "Paris", "France", some "IDF", 48, 2, 1000⟩

/-- A concrete healthy import environment (row count readable; imports
succeed). -/
def envW : ImportEnv := ⟨false, .ok [cityW], .ok "cities.csv", false, .ok [cityW]⟩

/-- An import environment in which the CSV import succeeds but delivers zero
records (readable row count; download would fail; retry would fail). -/
def envZ : ImportEnv := ⟨false, .ok [], .error "offline", false, .fail [] "no data"⟩

/-- An import environment whose CSV import raises after a partial batch. -/
def envF : ImportEnv :=
  ⟨false, .fail [cityW] "parse error", .ok "dl.csv", false, .fail [] "parse again"⟩

/-- An import environment in which everything ingestion-related fails: the
CSV ingestion raises with nothing inserted and the network is unreachable. -/
def envDead : ImportEnv :=
  ⟨false, .fail [] "no source", .error "network down", false, .fail [] "x"⟩

/-- A worker-process construction environment (worker id `"1"`). -/
def envInitW : InitEnv := ⟨some "1", false, false, envW, envW⟩

/-- A standalone construction environment with healthy collaborators. -/
def envInitS : InitEnv := ⟨none, false, false, envW, envW⟩

/-- A standalone construction environment over dead ingestion. -/
def envInitDead : InitEnv := ⟨none, false, false, envDead, envDead⟩

/-- A standalone construction environment whose row-count check raises, over
dead ingestion. -/
def envInitDeadRc : InitEnv :=
  ⟨some "standalone", false, true, envDead, envDead⟩

namespace LruCache

variable {K V : Type} [DecidableEq K]

/-- A call never changes the cache's capacity. -/
theorem maxsize_call (c : LruCache K V) (f : K → V) (k : K) :
    ((c.call f k).2.1).maxsize = c.maxsize := by
  unfold call
  split <;> rfl

/-- A call never touches anything but the cache: capacity bound preserved. -/
theorem length_call_le (c : LruCache K V) (f : K → V) (k : K)
    (h : c.entries.length ≤ c.maxsize) :
    ((c.call f k).2.1).entries.length ≤ c.maxsize := by
  unfold call
  split
  case h_1 p hp =>
    have hmem : p ∈ c.entries := List.mem_of_find?_eq_some hp
    have hpk : decide (p.1 = k) = true := by
      have h2 := List.find?_some hp
      exact h2
    have hsplit : c.entries.length =
        (c.entries.filter (fun q : K × V => decide (q.1 = k))).length +
        (c.entries.filter (fun q : K × V => !decide (q.1 = k))).length := by
      simpa using
        List.length_eq_length_filter_add (l := c.entries)
          (fun q : K × V => decide (q.1 = k))
    have hpos : 0 <
        (c.entries.filter (fun q : K × V => decide (q.1 = k))).length :=
      List.length_pos_of_mem (List.mem_filter.mpr ⟨hmem, hpk⟩)
    simp only [List.length_cons, decide_not]
    omega
  case h_2 =>
    simp only [List.length_take]
    omega

omit [DecidableEq K] in
/-- A cached entry's key is among the cache's keys. -/
theorem mem_keys_of_mem {c : LruCache K V} {q : K × V} (h : q ∈ c.entries) :
    q.1 ∈ c.keys :=
  List.mem_map_of_mem Prod.fst h

/-- A call on an uncached key invokes the function and pushes the new entry
to the front, truncating at capacity. -/
theorem call_of_not_mem_keys (c : LruCache K V) (f : K → V) (k : K)
    (h : k ∉ c.keys) :
    c.call f k =
      (f k, ⟨((k, f k) :: c.entries).take c.maxsize, c.maxsize⟩, true) := by
  have hnone : c.entries.find? (fun p => decide (p.1 = k)) = none := by
    rw [List.find?_eq_none]
    intro q hq
    simp only [decide_eq_true_eq]
    intro hqk
    exact h (hqk ▸ mem_keys_of_mem hq)
  unfold call
  rw [hnone]

/-- After any call on a cache of positive capacity, the called key sits at
the front of the cache paired with the returned value, and occurs nowhere in
the tail. -/
theorem call_front (c : LruCache K V) (f : K → V) (k : K)
    (hpos : 0 < c.maxsize) :
    ∃ t, ((c.call f k).2.1).entries = (k, (c.call f k).1) :: t ∧
      ∀ q ∈ t, q.1 ≠ k := by
  unfold call
  split
  case h_1 p hp =>
    have hpk : decide (p.1 = k) = true := by
      have h2 := List.find?_some hp
      exact h2
    have hpk2 : p.1 = k := by simpa using hpk
    refine ⟨c.entries.filter (fun q => q.1 ≠ k), ?_, ?_⟩
    · rfl
    · intro q hq
      have := List.of_mem_filter hq
      simpa using this
  case h_2 hp =>
    cases hmx : c.maxsize with
    | zero => omega
    | succ m =>
      refine ⟨c.entries.take m, ?_, ?_⟩
      · simp only [List.take_succ_cons]
      · intro q hq
        have hq2 : q ∈ c.entries := List.take_subset _ _ hq
        have := List.find?_eq_none.mp hp q hq2
        simpa using this

/-- Calling on the key cached at the front is a hit: the stored value is
returned, the function is not invoked, and the cache is unchanged. -/
theorem call_hit_front (c : LruCache K V) (f : K → V) (k : K) (v : V)
    (t : List (K × V)) (he : c.entries = (k, v) :: t)
    (ht : ∀ q ∈ t, q.1 ≠ k) :
    c.call f k = (v, c, false) := by
  obtain ⟨entries, maxsize⟩ := c
  simp only at he
  subst he
  unfold call
  rw [List.find?_cons_of_pos _ (by simp)]
  simp only
  have hfil : List.filter (fun q => decide ¬(q.1 = k)) ((k, v) :: t) = t := by
    rw [List.filter_cons]
    simp only [decide_not, decide_eq_true_eq, not_true, Bool.not_eq_true]
    rw [if_neg (by simp)]
    exact List.filter_eq_self.mpr (fun a ha => by simpa using ht a ha)
  rw [hfil]

/-- Every key cached after a call was either the called key or already
cached before. -/
theorem keys_call_subset (c : LruCache K V) (f : K → V) (k : K) :
    ((c.call f k).2.1).keys ⊆ k :: c.keys := by
  unfold call keys
  split
  case h_1 p hp =>
    intro x hx
    simp only [List.map_cons, List.mem_cons] at hx
    rcases hx with rfl | hx
    · exact List.mem_cons_self _ _
    · obtain ⟨q, hq, rfl⟩ := List.mem_map.mp hx
      exact List.mem_cons_of_mem _
        (List.mem_map_of_mem _ (List.mem_of_mem_filter hq))
  case h_2 hp =>
    intro x hx
    obtain ⟨q, hq, rfl⟩ := List.mem_map.mp hx
    have hq2 : q ∈ (k, f k) :: c.entries := List.take_subset _ _ hq
    rcases List.mem_cons.mp hq2 with rfl | hq3
    · exact List.mem_cons_self _ _
    · exact List.mem_cons_of_mem _ (List.mem_map_of_mem _ hq3)

/-- A miss on a full cache evicts exactly the least-recently-used entry: the
new cache is the fresh entry followed by every old entry except the last
(least recently used) one. -/
theorem call_evicts_lru (c : LruCache K V) (f : K → V) (k : K)
    (hfull : c.entries.length = c.maxsize) (hpos : 0 < c.maxsize)
    (h : k ∉ c.keys) :
    ((c.call f k).2.1).entries = (k, f k) :: c.entries.dropLast := by
  rw [call_of_not_mem_keys c f k h]
  simp only
  cases hmx : c.maxsize with
  | zero => omega
  | succ m =>
    rw [List.take_succ_cons]
    congr 1
    rw [List.dropLast_eq_take, hfull, hmx]
    simp

end LruCache

/-- Repeating a `search_cities` call with the identical argument tuple hits
the cache: same result, unchanged facade, repository not invoked. -/
theorem CityData.search_cities_repeat (cd : CityData) (k : SearchKey)
    (hpos : 0 < cd.search_cache.maxsize) :
    (cd.search_cities k).2.1.search_cities k =
      ((cd.search_cities k).1, (cd.search_cities k).2.1, false) := by
  obtain ⟨t, ht, htk⟩ :=
    LruCache.call_front cd.search_cache (citySearch cd.table) k hpos
  have hhit := LruCache.call_hit_front
    ((cd.search_cache.call (citySearch cd.table) k).2.1)
    (citySearch cd.table) k
    ((cd.search_cache.call (citySearch cd.table) k).1) t ht htk
  simp only [CityData.search_cities]
  rw [hhit]

/-- A `search_cities` call whose argument tuple differs from the previous
call's (and is not otherwise cached) misses the cache and invokes the
repository on the unchanged table. -/
theorem CityData.search_cities_distinct (cd : CityData) (k k' : SearchKey)
    (hne : k' ≠ k) (hnotmem : k' ∉ cd.search_cache.keys) :
    ((cd.search_cities k).2.1.search_cities k').2.2 = true ∧
    ((cd.search_cities k).2.1.search_cities k').1 = citySearch cd.table k' := by
  have hsub := LruCache.keys_call_subset cd.search_cache (citySearch cd.table) k
  have hnot2 : k' ∉ ((cd.search_cache.call (citySearch cd.table) k).2.1).keys := by
    intro hmem
    rcases List.mem_cons.mp (hsub hmem) with h | h
    · exact hne h
    · exact hnotmem h
  have hmiss := LruCache.call_of_not_mem_keys
    ((cd.search_cache.call (citySearch cd.table) k).2.1)
    (citySearch cd.table) k' hnot2
  simp only [CityData.search_cities]
  rw [hmiss]
  exact ⟨rfl, rfl⟩

/-- Repeating a `get_city` call with the identical identifier hits the
cache: same result, unchanged facade, repository not invoked. -/
theorem CityData.get_city_repeat (cd : CityData) (cid : Nat)
    (hpos : 0 < cd.city_cache.maxsize) :
    (cd.get_city cid).2.1.get_city cid =
      ((cd.get_city cid).1, (cd.get_city cid).2.1, false) := by
  obtain ⟨t, ht, htk⟩ :=
    LruCache.call_front cd.city_cache (cityGetById cd.table) cid hpos
  have hhit := LruCache.call_hit_front
    ((cd.city_cache.call (cityGetById cd.table) cid).2.1)
    (cityGetById cd.table) cid
    ((cd.city_cache.call (cityGetById cd.table) cid).1) t ht htk
  simp only [CityData.get_city]
  rw [hhit]

/-- A `get_city` call with a different, uncached identifier misses the cache
and invokes the repository on the unchanged table. -/
theorem CityData.get_city_distinct (cd : CityData) (cid cid' : Nat)
    (hne : cid' ≠ cid) (hnotmem : cid' ∉ cd.city_cache.keys) :
    ((cd.get_city cid).2.1.get_city cid').2.2 = true ∧
    ((cd.get_city cid).2.1.get_city cid').1 = cityGetById cd.table cid' := by
  have hsub := LruCache.keys_call_subset cd.city_cache (cityGetById cd.table) cid
  have hnot2 : cid' ∉ ((cd.city_cache.call (cityGetById cd.table) cid).2.1).keys := by
    intro hmem
    rcases List.mem_cons.mp (hsub hmem) with h | h
    · exact hne h
    · exact hnotmem h
  have hmiss := LruCache.call_of_not_mem_keys
    ((cd.city_cache.call (cityGetById cd.table) cid).2.1)
    (cityGetById cd.table) cid' hnot2
  simp only [CityData.get_city]
  rw [hmiss]
  exact ⟨rfl, rfl⟩

/-- Repeating `get_countries` hits the cache: same result, unchanged facade,
repository not invoked. -/
theorem CityData.get_countries_repeat (cd : CityData)
    (hpos : 0 < cd.countries_cache.maxsize) :
    cd.get_countries.2.1.get_countries =
      (cd.get_countries.1, cd.get_countries.2.1, false) := by
  obtain ⟨t, ht, htk⟩ :=
    LruCache.call_front cd.countries_cache
      (fun _ => regionGetCountries cd.table) () hpos
  have hhit := LruCache.call_hit_front
    ((cd.countries_cache.call (fun _ => regionGetCountries cd.table) ()).2.1)
    (fun _ => regionGetCountries cd.table) ()
    ((cd.countries_cache.call (fun _ => regionGetCountries cd.table) ()).1)
    t ht htk
  simp only [CityData.get_countries]
  rw [hhit]

/-- Repeating a `get_states` call with the identical country hits the cache:
same result, unchanged facade, repository not invoked. -/
theorem CityData.get_states_repeat (cd : CityData) (country : String)
    (hpos : 0 < cd.states_cache.maxsize) :
    (cd.get_states country).2.1.get_states country =
      ((cd.get_states country).1, (cd.get_states country).2.1, false) := by
  obtain ⟨t, ht, htk⟩ :=
    LruCache.call_front cd.states_cache (regionGetStates cd.table) country hpos
  have hhit := LruCache.call_hit_front
    ((cd.states_cache.call (regionGetStates cd.table) country).2.1)
    (regionGetStates cd.table) country
    ((cd.states_cache.call (regionGetStates cd.table) country).1) t ht htk
  simp only [CityData.get_states]
  rw [hhit]

/-- A `get_states` call with a different, uncached country misses the cache
and invokes the repository on the unchanged table. -/
theorem CityData.get_states_distinct (cd : CityData) (c c' : String)
    (hne : c' ≠ c) (hnotmem : c' ∉ cd.states_cache.keys) :
    ((cd.get_states c).2.1.get_states c').2.2 = true ∧
    ((cd.get_states c).2.1.get_states c').1 = regionGetStates cd.table c' := by
  have hsub := LruCache.keys_call_subset cd.states_cache (regionGetStates cd.table) c
  have hnot2 : c' ∉ ((cd.states_cache.call (regionGetStates cd.table) c).2.1).keys := by
    intro hmem
    rcases List.mem_cons.mp (hsub hmem) with h | h
    · exact hne h
    · exact hnotmem h
  have hmiss := LruCache.call_of_not_mem_keys
    ((cd.states_cache.call (regionGetStates cd.table) c).2.1)
    (regionGetStates cd.table) c' hnot2
  simp only [CityData.get_states]
  rw [hmiss]
  exact ⟨rfl, rfl⟩

/-- Repeating a `get_cities_in_state` call with the identical
(state, country) pair hits the cache: same result, unchanged facade,
repository not invoked. -/
theorem CityData.get_cities_in_state_repeat (cd : CityData) (s c : String)
    (hpos : 0 < cd.cities_in_state_cache.maxsize) :
    (cd.get_cities_in_state s c).2.1.get_cities_in_state s c =
      ((cd.get_cities_in_state s c).1, (cd.get_cities_in_state s c).2.1,
        false) := by
  obtain ⟨t, ht, htk⟩ :=
    LruCache.call_front cd.cities_in_state_cache
      (fun p => regionGetCitiesInState cd.table p.1 p.2) (s, c) hpos
  have hhit := LruCache.call_hit_front
    ((cd.cities_in_state_cache.call
        (fun p => regionGetCitiesInState cd.table p.1 p.2) (s, c)).2.1)
    (fun p => regionGetCitiesInState cd.table p.1 p.2) (s, c)
    ((cd.cities_in_state_cache.call
        (fun p => regionGetCitiesInState cd.table p.1 p.2) (s, c)).1) t ht htk
  simp only [CityData.get_cities_in_state]
  rw [hhit]

/-- A `get_cities_in_state` call whose (state, country) pair differs from
the previous call's (and is not otherwise cached) misses the cache and
invokes the repository on the unchanged table. -/
theorem CityData.get_cities_in_state_distinct (cd : CityData)
    (s c s' c' : String) (hne : (s', c') ≠ (s, c))
    (hnotmem : (s', c') ∉ cd.cities_in_state_cache.keys) :
    ((cd.get_cities_in_state s c).2.1.get_cities_in_state s' c').2.2 = true ∧
    ((cd.get_cities_in_state s c).2.1.get_cities_in_state s' c').1 =
      regionGetCitiesInState cd.table s' c' := by
  have hsub := LruCache.keys_call_subset cd.cities_in_state_cache
    (fun p => regionGetCitiesInState cd.table p.1 p.2) (s, c)
  have hnot2 : (s', c') ∉
      ((cd.cities_in_state_cache.call
        (fun p => regionGetCitiesInState cd.table p.1 p.2) (s, c)).2.1).keys := by
    intro hmem
    rcases List.mem_cons.mp (hsub hmem) with h | h
    · exact hne h
    · exact hnotmem h
  have hmiss := LruCache.call_of_not_mem_keys
    ((cd.cities_in_state_cache.call
        (fun p => regionGetCitiesInState cd.table p.1 p.2) (s, c)).2.1)
    (fun p => regionGetCitiesInState cd.table p.1 p.2) (s', c') hnot2
  simp only [CityData.get_cities_in_state]
  rw [hmiss]
  exact ⟨rfl, rfl⟩

/-- C1: every cached read operation (`search_cities`, `get_city`,
`get_countries`, `get_states`, `get_cities_in_state`) serves a repeated call
with the identical argument tuple from its cache — identical result, no
repository invocation — while a second call whose argument tuple differs in
any position by value (including `None` versus a concrete value, and
provided that tuple is not already cached) misses the cache and invokes the
repository again. -/
theorem claim_C1_cached_reads :
    (∀ (cd : CityData) (k : SearchKey), 0 < cd.search_cache.maxsize →
      (cd.search_cities k).2.1.search_cities k =
        ((cd.search_cities k).1, (cd.search_cities k).2.1, false)) ∧
    (∀ (cd : CityData) (k k' : SearchKey), k' ≠ k →
      k' ∉ cd.search_cache.keys →
      ((cd.search_cities k).2.1.search_cities k').2.2 = true ∧
      ((cd.search_cities k).2.1.search_cities k').1 = citySearch cd.table k') ∧
    (∀ (cd : CityData) (cid : Nat), 0 < cd.city_cache.maxsize →
      (cd.get_city cid).2.1.get_city cid =
        ((cd.get_city cid).1, (cd.get_city cid).2.1, false)) ∧
    (∀ (cd : CityData) (cid cid' : Nat), cid' ≠ cid →
      cid' ∉ cd.city_cache.keys →
      ((cd.get_city cid).2.1.get_city cid').2.2 = true ∧
      ((cd.get_city cid).2.1.get_city cid').1 = cityGetById cd.table cid') ∧
    (∀ cd : CityData, 0 < cd.countries_cache.maxsize →
      cd.get_countries.2.1.get_countries =
        (cd.get_countries.1, cd.get_countries.2.1, false)) ∧
    (∀ (cd : CityData) (c : String), 0 < cd.states_cache.maxsize →
      (cd.get_states c).2.1.get_states c =
        ((cd.get_states c).1, (cd.get_states c).2.1, false)) ∧
    (∀ (cd : CityData) (c c' : String), c' ≠ c → c' ∉ cd.states_cache.keys →
      ((cd.get_states c).2.1.get_states c').2.2 = true ∧
      ((cd.get_states c).2.1.get_states c').1 = regionGetStates cd.table c') ∧
    (∀ (cd : CityData) (s c : String), 0 < cd.cities_in_state_cache.maxsize →
      (cd.get_cities_in_state s c).2.1.get_cities_in_state s c =
        ((cd.get_cities_in_state s c).1, (cd.get_cities_in_state s c).2.1,
          false)) ∧
    (∀ (cd : CityData) (s c s' c' : String), (s', c') ≠ (s, c) →
      (s', c') ∉ cd.cities_in_state_cache.keys →
      ((cd.get_cities_in_state s c).2.1.get_cities_in_state s' c').2.2 =
        true ∧
      ((cd.get_cities_in_state s c).2.1.get_cities_in_state s' c').1 =
        regionGetCitiesInState cd.table s' c') :=
  ⟨CityData.search_cities_repeat, CityData.search_cities_distinct,
   CityData.get_city_repeat, CityData.get_city_distinct,
   CityData.get_countries_repeat, CityData.get_states_repeat,
   CityData.get_states_distinct, CityData.get_cities_in_state_repeat,
   CityData.get_cities_in_state_distinct⟩

/-- C1 witness: on a concrete fresh facade, a repeated `search_cities` call
with the identical tuple is a cache hit, and toggling `user_lat` from `None`
to `40.0` forces a repository invocation; likewise a concrete `get_city`
repeat hits and a changed id misses. -/
theorem claim_C1_cached_reads_witness :
    ((cdW.search_cities kW0).2.1.search_cities kW0 =
      ((cdW.search_cities kW0).1, (cdW.search_cities kW0).2.1, false)) ∧
    ((cdW.search_cities kW0).2.1.search_cities kW1).2.2 = true ∧
    ((cdW.get_city 7).2.1.get_city 7 =
      ((cdW.get_city 7).1, (cdW.get_city 7).2.1, false)) ∧
    ((cdW.get_city 7).2.1.get_city 8).2.2 = true :=
  ⟨claim_C1_cached_reads.1 cdW kW0 (by decide),
   (claim_C1_cached_reads.2.1 cdW kW0 kW1 (by decide) (by decide)).1,
   claim_C1_cached_reads.2.2.1 cdW 7 (by decide),
   (claim_C1_cached_reads.2.2.2.1 cdW 7 8 (by decide) (by decide)).1⟩

/-- C7: `get_cities_by_coordinates` is not memoized — every call, including
one repeating the previous call's exact arguments, delegates to the
geographic repository on the current table (invocation flag `true`) and
returns its result, leaving the facade unchanged. -/
theorem claim_C7_geo_uncached :
    ∀ (cd : CityData) (lat lng r : ℚ),
      cd.get_cities_by_coordinates lat lng r =
        (geoFindByCoordinates cd.table lat lng r, cd, true) ∧
      (cd.get_cities_by_coordinates lat lng r).2.1.get_cities_by_coordinates
          lat lng r =
        (geoFindByCoordinates cd.table lat lng r, cd, true) := by
  intro cd lat lng r
  exact ⟨rfl, rfl⟩

/-- C8: `close` releases the handle exactly on non-persistent instances, is
a no-op on persistent ones, is idempotent, and `__exit__` (normal or
exceptional) is exactly a `close` call. -/
theorem claim_C8_close_semantics :
    (∀ cd : CityData, cd.persistent = true → cd.close = cd) ∧
    (∀ cd : CityData, cd.persistent = false → cd.close.handleOpen = false) ∧
    (∀ cd : CityData, cd.close.close = cd.close) ∧
    (∀ (cd : CityData) (exc : Option String), cd.exitContext exc = cd.close) := by
  refine ⟨?_, ?_, ?_, ?_⟩
  · intro cd h
    simp [CityData.close, h]
  · intro cd h
    simp [CityData.close, h]
  · intro cd
    by_cases h : cd.persistent
    · simp [CityData.close, h]
    · simp [CityData.close, h]
  · intro cd exc
    rfl

/-- C8 witness: the close/exit semantics evaluated on concrete persistent
and non-persistent facades. -/
theorem claim_C8_close_semantics_witness :
    (mkCityData [] true).close = mkCityData [] true ∧
    (mkCityData [] false).close.handleOpen = false ∧
    (mkCityData [] false).close.close = (mkCityData [] false).close ∧
    (mkCityData [] false).exitContext (some "boom") =
      (mkCityData [] false).close :=
  ⟨claim_C8_close_semantics.1 _ rfl, claim_C8_close_semantics.2.1 _ rfl,
   claim_C8_close_semantics.2.2.1 _, claim_C8_close_semantics.2.2.2 _ _⟩

/-- Serving one read call preserves the per-method cache bounds. -/
theorem cacheBoundsOk_step (cd : CityData) (call : ReadCall)
    (h : cacheBoundsOk cd) : cacheBoundsOk (cd.step call) := by
  obtain ⟨⟨h1, h1m⟩, ⟨h2, h2m⟩, ⟨h3, h3m⟩, ⟨h4, h4m⟩, ⟨h5, h5m⟩⟩ := h
  cases call with
  | search k =>
      have hl := LruCache.length_call_le cd.search_cache
        (citySearch cd.table) k (le_of_le_of_eq h1 h1m.symm)
      have hm := LruCache.maxsize_call cd.search_cache (citySearch cd.table) k
      exact ⟨⟨h1m ▸ hl, hm.trans h1m⟩, ⟨h2, h2m⟩, ⟨h3, h3m⟩, ⟨h4, h4m⟩,
        ⟨h5, h5m⟩⟩
  | city cid =>
      have hl := LruCache.length_call_le cd.city_cache
        (cityGetById cd.table) cid (le_of_le_of_eq h2 h2m.symm)
      have hm := LruCache.maxsize_call cd.city_cache (cityGetById cd.table) cid
      exact ⟨⟨h1, h1m⟩, ⟨h2m ▸ hl, hm.trans h2m⟩, ⟨h3, h3m⟩, ⟨h4, h4m⟩,
        ⟨h5, h5m⟩⟩
  | coords lat lng r =>
      exact ⟨⟨h1, h1m⟩, ⟨h2, h2m⟩, ⟨h3, h3m⟩, ⟨h4, h4m⟩, ⟨h5, h5m⟩⟩
  | countries =>
      have hl := LruCache.length_call_le cd.countries_cache
        (fun _ => regionGetCountries cd.table) () (le_of_le_of_eq h3 h3m.symm)
      have hm := LruCache.maxsize_call cd.countries_cache
        (fun _ => regionGetCountries cd.table) ()
      exact ⟨⟨h1, h1m⟩, ⟨h2, h2m⟩, ⟨h3m ▸ hl, hm.trans h3m⟩, ⟨h4, h4m⟩,
        ⟨h5, h5m⟩⟩
  | states c =>
      have hl := LruCache.length_call_le cd.states_cache
        (regionGetStates cd.table) c (le_of_le_of_eq h4 h4m.symm)
      have hm := LruCache.maxsize_call cd.states_cache
        (regionGetStates cd.table) c
      exact ⟨⟨h1, h1m⟩, ⟨h2, h2m⟩, ⟨h3, h3m⟩, ⟨h4m ▸ hl, hm.trans h4m⟩,
        ⟨h5, h5m⟩⟩
  | citiesInState s c =>
      have hl := LruCache.length_call_le cd.cities_in_state_cache
        (fun p => regionGetCitiesInState cd.table p.1 p.2) (s, c)
        (le_of_le_of_eq h5 h5m.symm)
      have hm := LruCache.maxsize_call cd.cities_in_state_cache
        (fun p => regionGetCitiesInState cd.table p.1 p.2) (s, c)
      exact ⟨⟨h1, h1m⟩, ⟨h2, h2m⟩, ⟨h3, h3m⟩, ⟨h4, h4m⟩,
        ⟨h5m ▸ hl, hm.trans h5m⟩⟩

/-- The per-method cache bounds are an invariant of every read-call
sequence. -/
theorem cacheBoundsOk_run (cd : CityData) (calls : List ReadCall)
    (h : cacheBoundsOk cd) : cacheBoundsOk (cd.run calls) := by
  induction calls generalizing cd with
  | nil => exact h
  | cons c cs ih => exact ih _ (cacheBoundsOk_step cd c h)

/-- A freshly constructed facade satisfies the cache bounds. -/
theorem cacheBoundsOk_mk (table : List CityRecord) (persistent : Bool) :
    cacheBoundsOk (mkCityData table persistent) := by
  refine ⟨⟨?_, rfl⟩, ⟨?_, rfl⟩, ⟨?_, rfl⟩, ⟨?_, rfl⟩, ⟨?_, rfl⟩⟩ <;>
    simp [mkCityData, LruCache.empty]

/-- C6: after any sequence of read calls on a fresh facade, each method's
cache holds at most its decorator capacity (`search_cities` 5000, `get_city`
1000, `get_countries` 1, `get_states` 100, `get_cities_in_state` 500); and
whenever a full cache takes a miss, the entry evicted is exactly the least
recently used one (the new cache is the fresh entry plus every old entry
except the last). -/
theorem claim_C6_cache_capacity_lru :
    (∀ (table : List CityRecord) (persistent : Bool) (calls : List ReadCall),
      cacheBoundsOk ((mkCityData table persistent).run calls)) ∧
    (∀ (K V : Type) [DecidableEq K] (c : LruCache K V) (f : K → V) (k : K),
      c.entries.length = c.maxsize → 0 < c.maxsize → k ∉ c.keys →
      ((c.call f k).2.1).entries = (k, f k) :: c.entries.dropLast) :=
  ⟨fun table persistent calls =>
    cacheBoundsOk_run _ calls (cacheBoundsOk_mk table persistent),
   fun _ _ _ c f k h1 h2 h3 => LruCache.call_evicts_lru c f k h1 h2 h3⟩

/-- C6 witness: the bounds evaluated after a concrete call sequence, and the
LRU eviction evaluated on a concrete full cache. -/
theorem claim_C6_cache_capacity_lru_witness :
    cacheBoundsOk ((mkCityData [] false).run
      [.search kW0, .countries, .city 7, .states "FR"]) ∧
    ((lruW.call (fun _ => []) "b").2.1).entries =
      ("b", ([] : List String)) :: lruW.entries.dropLast :=
  ⟨claim_C6_cache_capacity_lru.1 [] false _,
   claim_C6_cache_capacity_lru.2 String (List String) lruW (fun _ => []) "b"
     (by decide) (by decide) (by decide)⟩

/-- With a readable row count and a populated table, `import_city_data` is
an idempotent no-op: it returns `True` after only the row-count read. -/
theorem import_noop_of_populated (env : ImportEnv) (cd : CityData)
    (p : Option String) (b : Nat) (henv : env.rowCountFails = false)
    (hpop : 0 < cd.table.length) :
    cd.import_city_data env p b = (.ok true, cd, [.readRowCount]) := by
  unfold CityData.import_city_data importBody
  rw [henv]
  simp only [Bool.false_eq_true, if_false]
  rw [if_pos hpop]

/-- C3: on a populated store (row count > 0), `import_city_data` returns
`True` for any source path and batch size, performs no write (no
`import_from_csv`, no download, no delete — the trace is the bare row-count
read) and leaves the facade unchanged; hence a second call on the resulting
state again returns `True` with zero writes. -/
theorem claim_C3_import_idempotent_noop :
    ∀ (env env2 : ImportEnv) (cd : CityData) (p p2 : Option String)
      (b b2 : Nat), env.rowCountFails = false → env2.rowCountFails = false →
      0 < cd.table.length →
      cd.import_city_data env p b = (.ok true, cd, [.readRowCount]) ∧
      ((cd.import_city_data env p b).2.2).filter Event.isWrite = [] ∧
      (cd.import_city_data env p b).2.1.import_city_data env2 p2 b2 =
        (.ok true, cd, [.readRowCount]) := by
  intro env env2 cd p p2 b b2 h1 h2 hpop
  have hfst := import_noop_of_populated env cd p b h1 hpop
  refine ⟨hfst, ?_, ?_⟩
  · rw [hfst]
    rfl
  · rw [hfst]
    exact import_noop_of_populated env2 cd p2 b2 h2 hpop

/-- C3 witness: both consecutive `import_city_data` calls on a concrete
populated facade return `True` with zero writes. -/
theorem claim_C3_import_idempotent_noop_witness :
    (mkCityData [cityW] false).import_city_data envW none 5000 =
      (.ok true, mkCityData [cityW] false, [.readRowCount]) ∧
    (((mkCityData [cityW] false).import_city_data envW none 5000).2.2).filter
      Event.isWrite = [] ∧
    ((mkCityData [cityW] false).import_city_data envW none
        5000).2.1.import_city_data envW (some "other.csv") 100 =
      (.ok true, mkCityData [cityW] false, [.readRowCount]) :=
  claim_C3_import_idempotent_noop envW envW (mkCityData [cityW] false) none
    (some "other.csv") 5000 100 rfl rfl (by decide)

/-- On an empty store, a normally returning initial `import_from_csv` makes
`import_city_data` return whether the imported count was positive, appending
the imported rows; the trace shows no recovery step. -/
theorem import_plain_result (env : ImportEnv) (cd : CityData)
    (p : Option String) (b : Nat) (rows : List CityRecord)
    (h1 : env.rowCountFails = false) (h0 : cd.table.length = 0)
    (hcsv : env.csvOutcome = .ok rows) :
    cd.import_city_data env p b =
      (.ok (decide (rows.length > 0)), { cd with table := cd.table ++ rows },
        [.readRowCount, .importFromCsv p b true]) := by
  unfold CityData.import_city_data importBody
  rw [h1, hcsv]
  simp only [Bool.false_eq_true, if_false]
  rw [if_neg (by omega : ¬ cd.table.length > 0)]

/-- On an empty store with an explicit source path, a raising
`import_from_csv` makes `import_city_data` return `False` immediately: no
recovery, no delete; only the importer's own partial insertions remain. -/
theorem import_fail_explicit_path (env : ImportEnv) (cd : CityData)
    (path : String) (b : Nat) (part : List CityRecord) (msg : String)
    (h1 : env.rowCountFails = false) (h0 : cd.table.length = 0)
    (hcsv : env.csvOutcome = .fail part msg) :
    cd.import_city_data env (some path) b =
      (.ok false, { cd with table := cd.table ++ part },
        [.readRowCount, .importFromCsv (some path) b true]) := by
  unfold CityData.import_city_data importBody
  rw [h1, hcsv]
  simp only [Bool.false_eq_true, if_false]
  rw [if_neg (by omega : ¬ cd.table.length > 0)]

/-- The body of the outer `try` never downloads and never deletes: those
steps exist only in the recovery branch. -/
theorem importBody_no_recovery_events (env : ImportEnv) (p : Option String)
    (b : Nat) (t : List CityRecord) :
    Event.downloadForce ∉ (importBody env p b t).2.2 ∧
    Event.deleteAllRows ∉ (importBody env p b t).2.2 := by
  unfold importBody
  split
  · simp
  · split
    · simp
    · split <;> simp

/-- `import_city_data` never raises: its outcome is always `ok`. -/
theorem import_never_raises (env : ImportEnv) (cd : CityData)
    (p : Option String) (b : Nat) :
    ∃ r, (cd.import_city_data env p b).1 = Except.ok r := by
  unfold CityData.import_city_data
  split
  · exact ⟨_, rfl⟩
  · split
    · exact ⟨false, rfl⟩
    · split
      · exact ⟨_, rfl⟩
      · exact ⟨false, rfl⟩

/-- On an empty store with no explicit path, a raising first import triggers
the recovery: forced re-download, table clear, exactly one retried import;
a failing retry folds into an `ok false` return with only the retry's
partial rows left. -/
theorem import_recovery_shape (env : ImportEnv) (cd : CityData) (b : Nat)
    (part : List CityRecord) (msg path2 : String)
    (h1 : env.rowCountFails = false) (h0 : cd.table.length = 0)
    (hcsv : env.csvOutcome = .fail part msg)
    (hdl : env.downloadOutcome = .ok path2)
    (hdel : env.deleteFails = false) :
    (cd.import_city_data env none b).2.2 =
      [.readRowCount, .importFromCsv none b true, .downloadForce,
        .deleteAllRows, .importFromCsv (some path2) b false] ∧
    (∀ p2 m2, env.retryOutcome = .fail p2 m2 →
      (cd.import_city_data env none b).1 = .ok false ∧
      (cd.import_city_data env none b).2.1.table = p2) ∧
    (∀ rows, env.retryOutcome = .ok rows →
      (cd.import_city_data env none b).1 = .ok (decide (rows.length > 0))) := by
  unfold CityData.import_city_data importBody importRecovery
  rw [h1, hcsv, hdl, hdel]
  simp only [Bool.false_eq_true, if_false]
  rw [if_neg (by omega : ¬ cd.table.length > 0)]
  cases hr : env.retryOutcome with
  | ok rows =>
      refine ⟨rfl, ?_, ?_⟩
      · intro p2 m2 h
        cases h
      · intro rows2 h
        cases h
        rfl
  | fail p2 m2 =>
      refine ⟨rfl, ?_, ?_⟩
      · intro p3 m3 h
        cases h
        exact ⟨rfl, rfl⟩
      · intro rows2 h
        cases h

/-- With an explicit source path, no call sequence of `import_city_data`
ever downloads or deletes, whatever fails. -/
theorem import_explicit_no_recovery (env : ImportEnv) (cd : CityData)
    (path : String) (b : Nat) :
    Event.downloadForce ∉ (cd.import_city_data env (some path) b).2.2 ∧
    Event.deleteAllRows ∉ (cd.import_city_data env (some path) b).2.2 := by
  have hbody := importBody_no_recovery_events env (some path) b cd.table
  unfold CityData.import_city_data
  split
  case h_1 b2 t tr heq =>
      rw [heq] at hbody
      exact hbody
  case h_2 e t tr heq =>
      rw [heq] at hbody
      exact hbody

/-- A failing row-count check with an explicit path folds into `ok false`
with no recovery. -/
theorem import_rowfail_explicit (env : ImportEnv) (cd : CityData)
    (path : String) (b : Nat) (h : env.rowCountFails = true) :
    cd.import_city_data env (some path) b = (.ok false, cd, [.readRowCount]) := by
  unfold CityData.import_city_data importBody
  rw [h]
  simp

/-- On an empty store with no explicit path, when the first import and the
forced re-download both fail, `import_city_data` folds into `ok false`
without reaching the delete or the retry. -/
theorem import_download_fail (env : ImportEnv) (cd : CityData) (b : Nat)
    (part : List CityRecord) (msg m2 : String)
    (h1 : env.rowCountFails = false) (h0 : cd.table.length = 0)
    (hcsv : env.csvOutcome = .fail part msg)
    (hdl : env.downloadOutcome = .error m2) :
    cd.import_city_data env none b =
      (.ok false, { cd with table := cd.table ++ part },
        [.readRowCount, .importFromCsv none b true, .downloadForce]) := by
  unfold CityData.import_city_data importBody importRecovery
  rw [h1, hcsv, hdl]
  simp only [Bool.false_eq_true, if_false]
  rw [if_neg (by omega : ¬ cd.table.length > 0)]
  rfl

/-- C9: when the initial `import_from_csv` returns normally,
`import_city_data` returns `True` exactly when the imported count is
positive (in particular a clean zero-record import yields `False`), and the
forced re-download / table clear / retry recovery is never entered. -/
theorem claim_C9_result_reflects_count :
    ∀ (env : ImportEnv) (cd : CityData) (p : Option String) (b : Nat)
      (rows : List CityRecord), env.rowCountFails = false →
      cd.table.length = 0 → env.csvOutcome = .ok rows →
      ((cd.import_city_data env p b).1 = .ok true ↔ 0 < rows.length) ∧
      (cd.import_city_data env p b).1 = .ok (decide (rows.length > 0)) ∧
      Event.downloadForce ∉ (cd.import_city_data env p b).2.2 ∧
      Event.deleteAllRows ∉ (cd.import_city_data env p b).2.2 := by
  intro env cd p b rows h1 h0 hcsv
  rw [import_plain_result env cd p b rows h1 h0 hcsv]
  exact ⟨by simp, rfl, by simp, by simp⟩

/-- C9 witness: a concrete zero-record import returns `ok false` with no
recovery event. -/
theorem claim_C9_result_reflects_count_witness :
    ¬ (((mkCityData [] false).import_city_data envZ none 5000).1 = .ok true) ∧
    ((mkCityData [] false).import_city_data envZ none 5000).1 =
      .ok (decide (([] : List CityRecord).length > 0)) ∧
    Event.downloadForce ∉
      ((mkCityData [] false).import_city_data envZ none 5000).2.2 := by
  have h := claim_C9_result_reflects_count envZ (mkCityData [] false) none 5000
    [] rfl rfl rfl
  exact ⟨fun hc => by simpa using h.1.mp hc, h.2.1, h.2.2.1⟩

/-- C10: with an explicit source path, a failing import (exception from
`import_from_csv`, or a failing row-count check) returns `False` without any
delete or download — the pre-existing rows stay in place. -/
theorem claim_C10_explicit_path_state_preserved :
    (∀ (env : ImportEnv) (cd : CityData) (path : String) (b : Nat)
      (part : List CityRecord) (msg : String), env.rowCountFails = false →
      cd.table.length = 0 → env.csvOutcome = .fail part msg →
      (cd.import_city_data env (some path) b).1 = .ok false ∧
      Event.deleteAllRows ∉ (cd.import_city_data env (some path) b).2.2 ∧
      Event.downloadForce ∉ (cd.import_city_data env (some path) b).2.2 ∧
      cd.table <+: (cd.import_city_data env (some path) b).2.1.table) ∧
    (∀ (env : ImportEnv) (cd : CityData) (path : String) (b : Nat),
      env.rowCountFails = true →
      cd.import_city_data env (some path) b = (.ok false, cd, [.readRowCount])) := by
  constructor
  · intro env cd path b part msg h1 h0 hcsv
    rw [import_fail_explicit_path env cd path b part msg h1 h0 hcsv]
    exact ⟨rfl, by simp, by simp, ⟨part, rfl⟩⟩
  · intro env cd path b h
    exact import_rowfail_explicit env cd path b h

/-- C10 witness: a concrete explicit-path failure returns `ok false`, never
deletes, and keeps the pre-existing (empty) prefix of the table. -/
theorem claim_C10_explicit_path_state_preserved_witness :
    ((mkCityData [] false).import_city_data envF (some "given.csv") 5000).1 =
      .ok false ∧
    Event.deleteAllRows ∉
      ((mkCityData [] false).import_city_data envF (some "given.csv") 5000).2.2 ∧
    (mkCityData [] false).table <+:
      ((mkCityData [] false).import_city_data envF
        (some "given.csv") 5000).2.1.table := by
  have h := claim_C10_explicit_path_state_preserved.1 envF (mkCityData [] false)
    "given.csv" 5000 [cityW] "parse error" rfl rfl rfl
  exact ⟨h.1, h.2.1, h.2.2.2⟩

/-- C4: `import_city_data` never raises — every failure (row-count check,
ingestion, download, delete, retry) folds into a boolean return; and exactly
when no explicit path was given, a failing first attempt triggers one forced
re-download, one table clear and one retried import, returning `False`
rather than raising if the retry also fails, while an explicit-path call
never downloads or deletes. -/
theorem claim_C4_never_raises_retry_once :
    (∀ (env : ImportEnv) (cd : CityData) (p : Option String) (b : Nat),
      ∃ r, (cd.import_city_data env p b).1 = Except.ok r) ∧
    (∀ (env : ImportEnv) (cd : CityData) (b : Nat) (part : List CityRecord)
      (msg path2 : String), env.rowCountFails = false → cd.table.length = 0 →
      env.csvOutcome = .fail part msg → env.downloadOutcome = .ok path2 →
      env.deleteFails = false →
      (cd.import_city_data env none b).2.2 =
        [.readRowCount, .importFromCsv none b true, .downloadForce,
          .deleteAllRows, .importFromCsv (some path2) b false] ∧
      (∀ p2 m2, env.retryOutcome = .fail p2 m2 →
        (cd.import_city_data env none b).1 = .ok false ∧
        (cd.import_city_data env none b).2.1.table = p2) ∧
      (∀ rows, env.retryOutcome = .ok rows →
        (cd.import_city_data env none b).1 = .ok (decide (rows.length > 0)))) ∧
    (∀ (env : ImportEnv) (cd : CityData) (b : Nat) (part : List CityRecord)
      (msg m2 : String), env.rowCountFails = false → cd.table.length = 0 →
      env.csvOutcome = .fail part msg → env.downloadOutcome = .error m2 →
      (cd.import_city_data env none b).1 = .ok false) ∧
    (∀ (env : ImportEnv) (cd : CityData) (path : String) (b : Nat),
      Event.downloadForce ∉ (cd.import_city_data env (some path) b).2.2 ∧
      Event.deleteAllRows ∉ (cd.import_city_data env (some path) b).2.2) := by
  refine ⟨import_never_raises, import_recovery_shape, ?_,
    import_explicit_no_recovery⟩
  intro env cd b part msg m2 h1 h0 hcsv hdl
  rw [import_download_fail env cd b part msg m2 h1 h0 hcsv hdl]

/-- C4 witness: the no-raise outcome, the concrete recovery trace with a
failing retry folding into `ok false`, the download-failure fold, and the
explicit-path non-recovery, all on concrete environments. -/
theorem claim_C4_never_raises_retry_once_witness :
    (∃ r, ((mkCityData [] false).import_city_data envF none 5000).1 =
      Except.ok r) ∧
    ((mkCityData [] false).import_city_data envF none 5000).2.2 =
      [.readRowCount, .importFromCsv none 5000 true, .downloadForce,
        .deleteAllRows, .importFromCsv (some "dl.csv") 5000 false] ∧
    ((mkCityData [] false).import_city_data envF none 5000).1 = .ok false ∧
    ((mkCityData [] false).import_city_data envZ (some "given.csv") 5000).1 =
      .ok (decide (([] : List CityRecord).length > 0)) ∧
    Event.downloadForce ∉
      ((mkCityData [] false).import_city_data envF (some "x.csv") 5000).2.2 := by
  have ha := claim_C4_never_raises_retry_once.1 envF (mkCityData [] false)
    none 5000
  have hb := claim_C4_never_raises_retry_once.2.1 envF (mkCityData [] false)
    5000 [cityW] "parse error" "dl.csv" rfl rfl rfl rfl rfl
  have hd := (claim_C4_never_raises_retry_once.2.2.2 envF (mkCityData [] false)
    "x.csv" 5000).1
  refine ⟨ha, hb.1, (hb.2.1 [] "parse again" rfl).1, ?_, hd⟩
  rw [import_plain_result envZ (mkCityData [] false) (some "given.csv") 5000
    [] rfl rfl rfl]

/-- In a worker process (`GUNICORN_WORKER_ID` set to anything other than
`"standalone"`), construction performs no bootstrap at all. -/
theorem init_worker (env : InitEnv) (persistent : Bool)
    (table : List CityRecord) (wid : String) (hw : env.workerId = some wid)
    (hne : wid ≠ "standalone") :
    cityDataInit env persistent table =
      (.ok (mkCityData table persistent), []) := by
  unfold cityDataInit
  rw [hw]
  rw [if_pos (by simpa using hne)]

/-- In standalone mode with a readable, positive row count, construction
ensures the schema and reads the count but never imports. -/
theorem init_standalone_populated (env : InitEnv) (persistent : Bool)
    (table : List CityRecord)
    (hw : env.workerId = none ∨ env.workerId = some "standalone")
    (hs : env.ensureSchemaFails = false) (hr : env.initRowCountFails = false)
    (hpop : table.length ≠ 0) :
    cityDataInit env persistent table =
      (.ok (mkCityData table persistent), [.ensureSchema, .readRowCount]) := by
  unfold cityDataInit
  rcases hw with hw | hw <;>
  · rw [hw]
    rw [if_neg (by simp)]
    rw [hs, hr]
    simp only [Bool.false_eq_true, if_false]
    rw [if_neg (by simpa using hpop)]

/-- In standalone mode with a readable row count of zero, construction runs
the bootstrap import once and succeeds with its resulting state. -/
theorem init_standalone_empty (env : InitEnv) (persistent : Bool)
    (table : List CityRecord)
    (hw : env.workerId = none ∨ env.workerId = some "standalone")
    (hs : env.ensureSchemaFails = false) (hr : env.initRowCountFails = false)
    (hempty : table.length = 0) :
    cityDataInit env persistent table =
      (.ok (CityData.import_city_data env.importEnvA
          (mkCityData table persistent) none 5000).2.1,
        [.ensureSchema, .readRowCount, .importCityDataCall none 5000] ++
          (CityData.import_city_data env.importEnvA
            (mkCityData table persistent) none 5000).2.2) := by
  obtain ⟨r, hok⟩ := import_never_raises env.importEnvA
    (mkCityData table persistent) none 5000
  rcases hI : CityData.import_city_data env.importEnvA
      (mkCityData table persistent) none 5000 with ⟨res, cd1, tr1⟩
  rw [hI] at hok
  simp only at hok
  subst hok
  unfold cityDataInit
  rcases hw with hw | hw <;>
  · rw [hw]
    rw [if_neg (by simp)]
    rw [hs, hr]
    simp only [Bool.false_eq_true, if_false]
    rw [if_pos (by simpa using hempty)]
    rw [hI]

/-- In standalone mode, a raising row-count check is caught and a
best-effort bootstrap import runs; construction still succeeds. -/
theorem init_rowcount_fail (env : InitEnv) (persistent : Bool)
    (table : List CityRecord)
    (hw : env.workerId = none ∨ env.workerId = some "standalone")
    (hs : env.ensureSchemaFails = false) (hr : env.initRowCountFails = true) :
    cityDataInit env persistent table =
      (.ok (CityData.import_city_data env.importEnvA
          (mkCityData table persistent) none 5000).2.1,
        [.ensureSchema, .readRowCount, .importCityDataCall none 5000] ++
          (CityData.import_city_data env.importEnvA
            (mkCityData table persistent) none 5000).2.2) := by
  unfold cityDataInit
  rcases hw with hw | hw <;>
  · rw [hw]
    rw [if_neg (by simp)]
    rw [hs, hr]
    simp only [Bool.false_eq_true, if_false, if_true]

/-- C2: construction is gated on the worker-role identifier.  With a worker
sentinel (present and different from `"standalone"`) neither
`ensure_schema_exists` nor `import_city_data` is called; with the identifier
absent or `"standalone"`, the schema is ensured, then the row count is read,
and `import_city_data` is called exactly when the count is zero. -/
theorem claim_C2_bootstrap_gating :
    (∀ (env : InitEnv) (persistent : Bool) (table : List CityRecord)
      (wid : String), env.workerId = some wid → wid ≠ "standalone" →
      Event.ensureSchema ∉ (cityDataInit env persistent table).2 ∧
      ∀ p b, Event.importCityDataCall p b ∉
        (cityDataInit env persistent table).2) ∧
    (∀ (env : InitEnv) (persistent : Bool) (table : List CityRecord),
      (env.workerId = none ∨ env.workerId = some "standalone") →
      env.ensureSchemaFails = false → env.initRowCountFails = false →
      ((cityDataInit env persistent table).2).take 2 =
        [.ensureSchema, .readRowCount] ∧
      ((∃ p b, Event.importCityDataCall p b ∈
        (cityDataInit env persistent table).2) ↔ table.length = 0)) := by
  constructor
  · intro env persistent table wid hw hne
    rw [init_worker env persistent table wid hw hne]
    exact ⟨by simp, by intro p b; simp⟩
  · intro env persistent table hw hs hr
    by_cases hpop : table.length = 0
    · rw [init_standalone_empty env persistent table hw hs hr hpop]
      refine ⟨rfl, ?_, ?_⟩
      · intro _
        exact hpop
      · intro _
        exact ⟨none, 5000, by simp⟩
    · rw [init_standalone_populated env persistent table hw hs hr hpop]
      refine ⟨rfl, ?_, ?_⟩
      · rintro ⟨p, b, hmem⟩
        simp at hmem
      · intro h
        exact absurd h hpop

/-- C2 witness: concrete worker construction performs no bootstrap call;
concrete standalone construction ensures schema then reads the count, and
imports exactly on the empty table. -/
theorem claim_C2_bootstrap_gating_witness :
    Event.ensureSchema ∉ (cityDataInit envInitW false [cityW]).2 ∧
    Event.importCityDataCall none 5000 ∉ (cityDataInit envInitW false [cityW]).2 ∧
    ((cityDataInit envInitS false []).2).take 2 =
      [.ensureSchema, .readRowCount] ∧
    ((∃ p b, Event.importCityDataCall p b ∈ (cityDataInit envInitS false []).2)
      ↔ ([] : List CityRecord).length = 0) ∧
    ((∃ p b, Event.importCityDataCall p b ∈
      (cityDataInit envInitS false [cityW]).2) ↔
      ([cityW] : List CityRecord).length = 0) := by
  have hworker := claim_C2_bootstrap_gating.1 envInitW false [cityW] "1" rfl
    (by decide)
  have hempty := claim_C2_bootstrap_gating.2 envInitS false [] (Or.inl rfl)
    rfl rfl
  have hpop := claim_C2_bootstrap_gating.2 envInitS false [cityW] (Or.inl rfl)
    rfl rfl
  exact ⟨hworker.1, hworker.2 none 5000, hempty.1, hempty.2, hpop.2⟩

/-- Over an empty table, every read operation of a fresh facade returns an
empty result (or `none` for the by-id lookup) rather than failing. -/
theorem mk_empty_reads (persistent : Bool) :
    (∀ k, ((mkCityData [] persistent).search_cities k).1 = []) ∧
    (∀ cid, ((mkCityData [] persistent).get_city cid).1 = none) ∧
    (∀ lat lng r,
      ((mkCityData [] persistent).get_cities_by_coordinates lat lng r).1 = []) ∧
    ((mkCityData [] persistent).get_countries.1 = []) ∧
    (∀ c, ((mkCityData [] persistent).get_states c).1 = []) ∧
    (∀ s c, ((mkCityData [] persistent).get_cities_in_state s c).1 = []) := by
  refine ⟨?_, ?_, ?_, ?_, ?_, ?_⟩ <;>
    intros <;>
    simp [mkCityData, LruCache.empty, LruCache.call, CityData.search_cities,
      CityData.get_city, CityData.get_cities_by_coordinates,
      CityData.get_countries, CityData.get_states,
      CityData.get_cities_in_state, citySearch, cityGetById,
      geoFindByCoordinates, regionGetCountries, regionGetStates,
      regionGetCitiesInState]

/-- C5: in standalone mode (schema creation itself succeeding), a totally
failing ingestion — the row count readable as zero or its read raising, the
CSV import raising, the forced download unreachable — is caught: the
bootstrap import is still attempted, construction completes, and the
resulting facade is the empty-store facade, whose row count is 0 and whose
reads all return empty results instead of raising. -/
theorem claim_C5_graceful_degradation :
    ∀ (env : InitEnv) (persistent : Bool) (msg m2 : String),
      (env.workerId = none ∨ env.workerId = some "standalone") →
      env.ensureSchemaFails = false →
      env.importEnvA.rowCountFails = false →
      env.importEnvA.csvOutcome = .fail [] msg →
      env.importEnvA.downloadOutcome = .error m2 →
      (cityDataInit env persistent []).1 = .ok (mkCityData [] persistent) ∧
      Event.importCityDataCall none 5000 ∈ (cityDataInit env persistent []).2 ∧
      (mkCityData [] persistent).get_table_info.row_count = 0 ∧
      (∀ k, ((mkCityData [] persistent).search_cities k).1 = []) ∧
      (∀ cid, ((mkCityData [] persistent).get_city cid).1 = none) ∧
      (∀ lat lng r, ((mkCityData [] persistent).get_cities_by_coordinates
        lat lng r).1 = []) ∧
      ((mkCityData [] persistent).get_countries.1 = []) ∧
      (∀ c, ((mkCityData [] persistent).get_states c).1 = []) ∧
      (∀ s c, ((mkCityData [] persistent).get_cities_in_state s c).1 = []) := by
  intro env persistent msg m2 hw hs hA hcsv hdl
  obtain ⟨e1, e2, e3, e4, e5, e6⟩ := mk_empty_reads persistent
  have himp := import_download_fail env.importEnvA (mkCityData [] persistent)
    5000 [] msg m2 hA rfl hcsv hdl
  by_cases hr : env.initRowCountFails = true
  · have hinit := init_rowcount_fail env persistent [] hw hs hr
    rw [hinit, himp]
    exact ⟨rfl, by simp, rfl, e1, e2, e3, e4, e5, e6⟩
  · have hr2 : env.initRowCountFails = false := by simpa using hr
    have hinit := init_standalone_empty env persistent [] hw hs hr2 rfl
    rw [hinit, himp]
    exact ⟨rfl, by simp, rfl, e1, e2, e3, e4, e5, e6⟩

/-- C5 witness: concrete dead-ingestion standalone constructions (row count
zero, and row-count check raising) both succeed with the empty facade whose
concrete reads are empty. -/
theorem claim_C5_graceful_degradation_witness :
    (cityDataInit envInitDead false []).1 = .ok (mkCityData [] false) ∧
    (cityDataInit envInitDeadRc false []).1 = .ok (mkCityData [] false) ∧
    Event.importCityDataCall none 5000 ∈ (cityDataInit envInitDead false []).2 ∧
    (mkCityData [] false).get_table_info.row_count = 0 ∧
    ((mkCityData [] false).search_cities kW0).1 = [] ∧
    ((mkCityData [] false).get_city 7).1 = none ∧
    (mkCityData [] false).get_countries.1 = [] := by
  have h1 := claim_C5_graceful_degradation envInitDead false "no source"
    "network down" (Or.inl rfl) rfl rfl rfl rfl
  have h2 := claim_C5_graceful_degradation envInitDeadRc false "no source"
    "network down" (Or.inr rfl) rfl rfl rfl rfl
  exact ⟨h1.1, h2.1, h1.2.1, h1.2.2.1, h1.2.2.2.1 kW0, h1.2.2.2.2.1 7,
    h1.2.2.2.2.2.2.1⟩

end GeoDash
